import Mathlib

/-!
Shallow embedding of the actuator subsystem of `app/actuator.py`
(class `FlaskActuator`): the `health`, `info`, `metrics`, `env` and
`configprops` request handlers, modelled as pure Lean functions over
explicit inputs standing for the process-wide runtime context
(environment variables, clock readings, process start time) and the
results of the host-metric reads (`psutil.disk_usage('/')`,
`psutil.virtual_memory()`, `psutil.cpu_percent(...)`).

Conventions of the embedding:
* Numeric quantities (byte counts, percentages, clock values) are
  modelled in exact rational arithmetic (`ℚ`); Python `int(x)` is
  truncation toward zero (`intTrunc`).
* A fallible system read is an `Except String α` input: `.ok` carries
  the value the read produced, `.error` the exception message the read
  raised.  Python raises `ZeroDivisionError` ("division by zero") when
  a handler divides by a zero disk total; the embedding makes that
  branch explicit.
* Each JSON response body is a Lean structure whose fields mirror the
  JSON fields the handler emits (nested objects flattened with
  underscored names); the HTTP status code accompanies it in a
  response structure.  Only the fields of the psutil named tuples the
  handlers actually read are modelled.
-/

namespace FlaskActuator

/-- Python `int(q)` for a rational: truncation toward zero. -/
def intTrunc (q : ℚ) : ℤ :=
  if 0 ≤ q then ⌊q⌋ else ⌈q⌉

/-- Fields of `psutil.disk_usage('/')` read by the handlers. -/
structure DiskUsage where
  total : ℚ
  used : ℚ
  free : ℚ
  deriving DecidableEq, Repr

/-- Fields of `psutil.virtual_memory()` read by the handlers. -/
structure VirtualMemory where
  total : ℚ
  available : ℚ
  percent : ℚ
  deriving DecidableEq, Repr

/-- The two status strings `"UP"` / `"DOWN"` used by `health`. -/
inductive Status where
  | UP
  | DOWN
  deriving DecidableEq, Repr

/-- Success body of `health`: the JSON object built at
`actuator.py:62-86`, fields flattened (`components.diskSpace.status` is
`diskSpace_status`, and so on). -/
structure HealthSuccessBody where
  status : Status
  diskSpace_status : Status
  diskSpace_total : ℚ
  diskSpace_free : ℚ
  diskSpace_threshold : ℚ
  diskSpace_exists : Bool
  memory_status : Status
  memory_total : ℚ
  memory_available : ℚ
  memory_percent : ℚ
  ping_status : Status
  deriving DecidableEq, Repr

/-- Body of a `health` response: either the success object, or the
exception-path object `{"status": "DOWN", "details": {"error": e}}`
(`actuator.py:88-91`). -/
inductive HealthBody where
  | ok (b : HealthSuccessBody)
  | down (error : String)
  deriving DecidableEq, Repr

/-- A `health` response: body plus HTTP status code (Flask's `jsonify`
alone defaults to 200; the tuple form at `actuator.py:91` sets 503). -/
structure HealthResponse where
  body : HealthBody
  httpStatus : Nat
  deriving DecidableEq, Repr

/-- Embedding of `FlaskActuator.health` (`actuator.py:47-91`).  `disk` and `mem` are
the outcomes of the two `psutil` reads, in the order the code performs
them; a zero disk total makes the division at line 52 raise
`ZeroDivisionError`, caught by the same `except` clause. -/
def health (disk : Except String DiskUsage) (mem : Except String VirtualMemory) :
    HealthResponse :=
  match disk with
  | .error e => ⟨.down e, 503⟩
  | .ok du =>
    if du.total = 0 then ⟨.down "division by zero", 503⟩
    else
      match mem with
      | .error e => ⟨.down e, 503⟩
      | .ok vm =>
        let diskFreePercent := du.free / du.total * 100
        let diskStatus : Status := if diskFreePercent > 10 then .UP else .DOWN
        let memoryStatus : Status := if vm.percent < 90 then .UP else .DOWN
        let overallStatus : Status :=
          if diskStatus = .UP ∧ memoryStatus = .UP then .UP else .DOWN
        ⟨.ok { status := overallStatus
               diskSpace_status := diskStatus
               diskSpace_total := du.total
               diskSpace_free := du.free
               diskSpace_threshold := du.total * (1 / 10)
               diskSpace_exists := true
               memory_status := memoryStatus
               memory_total := vm.total
               memory_available := vm.available
               memory_percent := vm.percent
               ping_status := .UP }, 200⟩

/-- The `status` field of a `health` response body (present in both the
success object and the exception-path object, which hard-codes
`"DOWN"`). -/
def overallOf (r : HealthResponse) : Status :=
  match r.body with
  | .ok b => b.status
  | .down _ => .DOWN

/-- The `components.diskSpace.status` field, when the success body is
present. -/
def diskStatusOf (r : HealthResponse) : Option Status :=
  match r.body with
  | .ok b => some b.diskSpace_status
  | .down _ => none

/-- The `components.memory.status` field, when the success body is
present. -/
def memStatusOf (r : HealthResponse) : Option Status :=
  match r.body with
  | .ok b => some b.memory_status
  | .down _ => none

/-- The process environment `os.environ`, modelled as an association
list with distinct-by-construction keys left unconstrained. -/
abbrev Environ := List (String × String)

/-- Lookup in `os.environ`: the value bound to `k`, if any. -/
def lookupEnv (environ : Environ) (k : String) : Option String :=
  (environ.find? (fun kv => kv.1 == k)).map (fun kv => kv.2)

/-- Python `os.getenv(k, d)`: the bound value, else the default `d`. -/
def getenvD (environ : Environ) (k d : String) : String :=
  (lookupEnv environ k).getD d

/-- Per-process platform constants read by `info`
(`sys.version`, `platform.*`): fixed for the process lifetime. -/
structure Platform where
  pythonVersion : String
  pythonImplementation : String
  verMajor : Nat
  verMinor : Nat
  verMicro : Nat
  osName : String
  osVersion : String
  osArch : String
  osProcessor : String
  deriving DecidableEq, Repr

/-- The integer second count serialized into `info`'s uptime:
`int(time.time() - self.start_time)` (`actuator.py:95`). -/
def infoUptimeSeconds (startTime now : ℚ) : ℤ :=
  intTrunc (now - startTime)

/-- Body of `info` (`actuator.py:97-134`), JSON fields flattened:
`app.name` is `app_name`, `git.commit.id` is `git_commit_id`, … -/
structure InfoBody where
  app_name : String
  app_version : String
  app_description : String
  app_uptime : String
  build_version : String
  build_artifact : String
  build_name : String
  build_time : String
  build_group : String
  git_branch : String
  git_commit_id : String
  git_commit_time : String
  environment : String
  python_version : String
  python_implementation : String
  python_verMajor : Nat
  python_verMinor : Nat
  python_verMicro : Nat
  os_name : String
  os_version : String
  os_arch : String
  os_processor : String
  deriving DecidableEq, Repr

/-- Embedding of `FlaskActuator.info` (`actuator.py:93-134`).  `now` is the
`time.time()` reading, `nowIso` the `datetime.now().isoformat()`
string used as the default of `BUILD_TIME`; both are clock reads made
during the call.  Always succeeds (HTTP 200). -/
def info (p : Platform) (environ : Environ) (startTime now : ℚ)
    (nowIso : String) : InfoBody :=
  { app_name := getenvD environ "APP_NAME" "flask-web"
    app_version := getenvD environ "APP_VERSION" "1.0.0"
    app_description := "Flask Web Application with Actuator"
    app_uptime := toString (infoUptimeSeconds startTime now) ++ "s"
    build_version := getenvD environ "APP_VERSION" "1.0.0"
    build_artifact := getenvD environ "APP_NAME" "flask-web"
    build_name := getenvD environ "APP_NAME" "flask-web"
    build_time := getenvD environ "BUILD_TIME" nowIso
    build_group := "me-test"
    git_branch := getenvD environ "GIT_BRANCH" "unknown"
    git_commit_id := getenvD environ "GIT_COMMIT_HASH" "unknown"
    git_commit_time := getenvD environ "GIT_COMMIT_TIME" "unknown"
    environment := getenvD environ "ENVIRONMENT" "development"
    python_version := p.pythonVersion
    python_implementation := p.pythonImplementation
    python_verMajor := p.verMajor
    python_verMinor := p.verMinor
    python_verMicro := p.verMicro
    os_name := p.osName
    os_version := p.osVersion
    os_arch := p.osArch
    os_processor := p.osProcessor }

/-- One entry of the `measurements` object of `metrics`:
`{"statistic": ..., "value": ...}`. -/
structure Measurement where
  statistic : String
  value : ℚ
  deriving DecidableEq, Repr

/-- Success body of `metrics` (`actuator.py:143-178`): the `names`
array and the `measurements` object, the latter as an ordered
association list mirroring Python dict insertion order. -/
structure MetricsSuccessBody where
  names : List String
  measurements : List (String × Measurement)
  deriving DecidableEq, Repr

/-- Body of a `metrics` response: the success object, or the
exception-path object `{"error": e}` (`actuator.py:180`). -/
inductive MetricsBody where
  | ok (b : MetricsSuccessBody)
  | err (error : String)
  deriving DecidableEq, Repr

/-- A `metrics` response: body plus HTTP status code. -/
structure MetricsResponse where
  body : MetricsBody
  httpStatus : Nat
  deriving DecidableEq, Repr

/-- Embedding of `FlaskActuator.metrics` (`actuator.py:136-180`).  `cpu`, `mem`,
`disk` are the three `psutil` reads in the order the code performs
them; a zero disk total makes `(disk.used / disk.total)` at line 167
raise `ZeroDivisionError`, caught by the same `except` clause. -/
def metrics (cpu : Except String ℚ) (mem : Except String VirtualMemory)
    (disk : Except String DiskUsage) (startTime now : ℚ) : MetricsResponse :=
  match cpu with
  | .error e => ⟨.err e, 500⟩
  | .ok cpuPercent =>
    match mem with
    | .error e => ⟨.err e, 500⟩
    | .ok vm =>
      match disk with
      | .error e => ⟨.err e, 500⟩
      | .ok du =>
        if du.total = 0 then ⟨.err "division by zero", 500⟩
        else
          ⟨.ok { names := ["system.cpu.usage", "system.memory.usage",
                           "system.memory.total", "system.disk.usage",
                           "system.disk.total", "process.uptime"]
                 measurements :=
                   [("system.cpu.usage", ⟨"VALUE", cpuPercent⟩),
                    ("system.memory.usage", ⟨"VALUE", vm.percent⟩),
                    ("system.memory.total", ⟨"VALUE", vm.total⟩),
                    ("system.disk.usage", ⟨"VALUE", du.used / du.total * 100⟩),
                    ("system.disk.total", ⟨"VALUE", du.total⟩),
                    ("process.uptime", ⟨"VALUE", now - startTime⟩)] }, 200⟩

/-- The `value` of the `process.uptime` measurement of a `metrics`
response, when the success body is present. -/
def processUptimeOf (r : MetricsResponse) : Option ℚ :=
  match r.body with
  | .ok b => (b.measurements.lookup "process.uptime").map (fun m => m.value)
  | .err _ => none

/-- The `{"value": v}` wrapper each variable gets in the `env`
output (`actuator.py:194`). -/
structure PropVal where
  value : String
  deriving DecidableEq, Repr

/-- Body of `env` (`actuator.py:189-197`): `activeProfiles`, the single
property source's `name`, and its `properties` object as an ordered
association list. -/
structure EnvBody where
  activeProfiles : List String
  propertySources_name : String
  properties : List (String × PropVal)
  deriving DecidableEq, Repr

/-- The denylist of sensitive name substrings (`actuator.py:186`). -/
def sensitiveSubstrings : List String :=
  ["password", "secret", "key", "token", "credential", "auth"]

/-- Python `str.lower()` (the names involved are ASCII): lowercase
every character. -/
def strLower (s : String) : String := ⟨s.data.map Char.toLower⟩

/-- Boolean list-prefix test (helper for the Python `in` operator on
strings). -/
def isPrefixL : List Char → List Char → Bool
  | [], _ => true
  | _ :: _, [] => false
  | a :: as, b :: bs => a == b && isPrefixL as bs

/-- Boolean list-substring test: does `needle` occur contiguously in
the second list? -/
def containsL (needle : List Char) : List Char → Bool
  | [] => isPrefixL needle []
  | b :: bs => isPrefixL needle (b :: bs) || containsL needle bs

/-- Python `needle in hay` on strings: substring containment. -/
def strIn (needle hay : String) : Bool := containsL needle.data hay.data

/-- The filter predicate of `env` (`actuator.py:186`): does the
lowercased variable name contain one of the denylist substrings? -/
def isSensitiveName (k : String) : Bool :=
  sensitiveSubstrings.any (fun secret => strIn secret (strLower k))

/-- Embedding of `FlaskActuator.env` (`actuator.py:182-197`). -/
def env (environ : Environ) : EnvBody :=
  { activeProfiles := [getenvD environ "ENVIRONMENT" "development"]
    propertySources_name := "systemEnvironment"
    properties :=
      (environ.filter (fun kv => !(isSensitiveName kv.1))).map
        (fun kv => (kv.1, ⟨kv.2⟩)) }

/-- Body of `configprops` (`actuator.py:201-217`): the single
`flask-config` bean, fields flattened. -/
structure ConfigPropsBody where
  prefix_ : String
  debug : String
  testing : String
  port : String
  host : String
  deriving DecidableEq, Repr

/-- Embedding of `FlaskActuator.configprops` (`actuator.py:199-217`).  A handler
runs in a request context that includes the current clock reading; the
`ℚ` argument stands for that reading, which this handler ignores (it
reads only `os.environ`). -/
def configprops (environ : Environ) : ℚ → ConfigPropsBody :=
  fun _ =>
    { prefix_ := "flask"
      debug := getenvD environ "FLASK_DEBUG" "False"
      testing := getenvD environ "FLASK_TESTING" "False"
      port := getenvD environ "PORT" "8080"
      host := getenvD environ "HOST" "0.0.0.0" }

/-- Refinement-side predicate, written from the claim's words (not
from the code): the variable NAME contains, case-insensitively, one of
the sensitive substrings — here: some denylist entry is a contiguous
sublist of the lowercased name's characters. -/
def SpecSensitive (k : String) : Prop :=
  ∃ s ∈ sensitiveSubstrings, s.data <:+: (strLower k).data

/-- Projection of `info` with its two wall-clock-tied fields (`app.uptime` and
`build.time`) blanked, for stating what "identical except for
time-tied fields" means. -/
def eraseTimeFields (b : InfoBody) : InfoBody :=
  { b with app_uptime := "", build_time := "" }

end FlaskActuator

open FlaskActuator

/-! ## Theorems -/

/-- Helper: the disk condition of `health` (`free/total * 100 > 10`)
is, for a positive total, the strict free-ratio threshold
`free/total > 0.10`. -/
theorem disk_cond_iff_threshold (f t : ℚ) :
    ((10 : ℚ) < f / t * 100) ↔ ((1 / 10 : ℚ) < f / t) := by
  constructor <;> intro hx <;> linarith

/-- C1: when both system reads succeed (and the disk total is
positive, so the ratio is well defined), the overall status is UP iff
the free ratio strictly exceeds 0.10 and the memory used-percentage is
strictly below 90; a free ratio of exactly 0.10 gives disk status
DOWN, and a used percentage of exactly 90 gives memory status DOWN. -/
theorem health_up_iff_thresholds (du : DiskUsage) (vm : VirtualMemory)
    (h : 0 < du.total) :
    (overallOf (health (.ok du) (.ok vm)) = .UP ↔
      ((1 / 10 : ℚ) < du.free / du.total ∧ vm.percent < 90))
    ∧ (du.free / du.total = 1 / 10 →
        diskStatusOf (health (.ok du) (.ok vm)) = some .DOWN)
    ∧ (vm.percent = 90 →
        memStatusOf (health (.ok du) (.ok vm)) = some .DOWN) := by
  have hne : du.total ≠ 0 := ne_of_gt h
  refine ⟨?_, ?_, ?_⟩
  · by_cases hd : (1 / 10 : ℚ) < du.free / du.total <;>
      by_cases hm : vm.percent < 90 <;>
      simp [health, overallOf, hne, hm, disk_cond_iff_threshold, hd]
  · intro hr
    have hd : ¬ ((10 : ℚ) < du.free / du.total * 100) := by rw [hr]; norm_num
    simp [health, diskStatusOf, hne, hd]
  · intro hp
    have hm : ¬ (vm.percent < 90) := by rw [hp]; exact lt_irrefl _
    simp [health, memStatusOf, hne, hm]

/-- Witness for `health_up_iff_thresholds` at a concrete input:
total 1000, free 500 (ratio 0.5), memory 50 % used. -/
theorem health_up_iff_thresholds_witness :
    (0 : ℚ) < (1000 : ℚ) ∧
      overallOf (health (.ok ⟨1000, 500, 500⟩) (.ok ⟨1000, 500, 50⟩)) = .UP :=
  ⟨by norm_num,
    (health_up_iff_thresholds ⟨1000, 500, 500⟩ ⟨1000, 500, 50⟩
        (by norm_num)).1.mpr ⟨by norm_num, by norm_num⟩⟩

/-- C2 counterexample: with disk total 1000 and free 50 (5 % free) and
a successful memory read, the HTTP status code is 200, not the claimed
503 — `health` attaches 503 only on its exception path. -/
theorem health_disk5pct_counterexample :
    ¬ ((health (.ok ⟨1000, 950, 50⟩) (.ok ⟨1000, 500, 50⟩)).httpStatus = 503) := by
  decide

/-- C2 (amended): with disk total 1000 and free 50 (5 % free) and any
successful memory read, the body reports overall status DOWN and
`components.diskSpace.status = "DOWN"`, and the HTTP status code is
200 (503 is produced only on the exception path). -/
theorem health_disk5pct_down_http200 (vm : VirtualMemory) :
    overallOf (health (.ok ⟨1000, 950, 50⟩) (.ok vm)) = .DOWN
    ∧ diskStatusOf (health (.ok ⟨1000, 950, 50⟩) (.ok vm)) = some .DOWN
    ∧ (health (.ok ⟨1000, 950, 50⟩) (.ok vm)).httpStatus = 200 := by
  by_cases hm : vm.percent < 90 <;>
    simp [health, overallOf, diskStatusOf, hm] <;> norm_num

/-- C8: whenever both system reads succeed (disk total nonzero, so no
`ZeroDivisionError` either), the HTTP status code is 200 even if the
body's overall status is DOWN. -/
theorem health_success_http200 (du : DiskUsage) (vm : VirtualMemory)
    (h : du.total ≠ 0) :
    (health (.ok du) (.ok vm)).httpStatus = 200 := by
  simp [health, h]

/-- Witness for `health_success_http200`: a DOWN body still ships with
HTTP 200. -/
theorem health_success_http200_witness :
    (health (.ok ⟨1000, 950, 50⟩) (.ok ⟨1000, 500, 50⟩)).httpStatus = 200 :=
  health_success_http200 ⟨1000, 950, 50⟩ ⟨1000, 500, 50⟩ (by norm_num)

/-- C3: every failing system read is caught locally.  `health` turns
the first raised error (from either read) into the body
`{"status": "DOWN", "details": {"error": e}}` with HTTP 503; `metrics`
turns the first raised error (from any of its three reads) into
`{"error": e}` with HTTP 500.  Both handlers are total functions of
their inputs, so no error propagates as an unhandled fault. -/
theorem read_errors_recovered (e : String) (du : DiskUsage)
    (mem : Except String VirtualMemory) (c : ℚ) (vm : VirtualMemory)
    (disk : Except String DiskUsage) (startTime now : ℚ)
    (h : du.total ≠ 0) :
    health (.error e) mem = ⟨.down e, 503⟩
    ∧ health (.ok du) (.error e) = ⟨.down e, 503⟩
    ∧ metrics (.error e) mem disk startTime now = ⟨.err e, 500⟩
    ∧ metrics (.ok c) (.error e) disk startTime now = ⟨.err e, 500⟩
    ∧ metrics (.ok c) (.ok vm) (.error e) startTime now = ⟨.err e, 500⟩ := by
  refine ⟨rfl, ?_, rfl, rfl, rfl⟩
  simp [health, h]

/-- Witness for `read_errors_recovered`: a failed disk read surfaces
as a 503 DOWN body carrying the message. -/
theorem read_errors_recovered_witness :
    health (.error "boom") (.ok ⟨1000, 500, 50⟩) =
      ⟨.down "boom", 503⟩ :=
  (read_errors_recovered "boom" ⟨1000, 500, 500⟩ (.ok ⟨1000, 500, 50⟩) 5
    ⟨1000, 500, 50⟩ (.ok ⟨1000, 500, 500⟩) 0 1 (by norm_num)).1

/-- C5: with no configuration variables set, `info` resolves every
optional field to its documented default; the `BUILD_TIME` default is
the call-time timestamp.  (`info` is a total function: it never
fails.) -/
theorem info_defaults (p : Platform) (startTime now : ℚ) (nowIso : String) :
    (info p [] startTime now nowIso).app_name = "flask-web"
    ∧ (info p [] startTime now nowIso).app_version = "1.0.0"
    ∧ (info p [] startTime now nowIso).build_version = "1.0.0"
    ∧ (info p [] startTime now nowIso).build_artifact = "flask-web"
    ∧ (info p [] startTime now nowIso).build_name = "flask-web"
    ∧ (info p [] startTime now nowIso).build_time = nowIso
    ∧ (info p [] startTime now nowIso).git_branch = "unknown"
    ∧ (info p [] startTime now nowIso).git_commit_id = "unknown"
    ∧ (info p [] startTime now nowIso).git_commit_time = "unknown"
    ∧ (info p [] startTime now nowIso).environment = "development" :=
  ⟨rfl, rfl, rfl, rfl, rfl, rfl, rfl, rfl, rfl, rfl⟩

/-- C10: in every `info` response, `app.name`, `build.artifact` and
`build.name` coincide (all resolved from `APP_NAME`), and
`app.version` coincides with `build.version` (both from
`APP_VERSION`). -/
theorem info_name_version_consistency (p : Platform) (environ : Environ)
    (startTime now : ℚ) (nowIso : String) :
    (info p environ startTime now nowIso).app_name =
        (info p environ startTime now nowIso).build_artifact
    ∧ (info p environ startTime now nowIso).build_artifact =
        (info p environ startTime now nowIso).build_name
    ∧ (info p environ startTime now nowIso).app_version =
        (info p environ startTime now nowIso).build_version
    ∧ (info p environ startTime now nowIso).app_name =
        getenvD environ "APP_NAME" "flask-web"
    ∧ (info p environ startTime now nowIso).app_version =
        getenvD environ "APP_VERSION" "1.0.0" :=
  ⟨rfl, rfl, rfl, rfl, rfl⟩

/-- C6: two calls with the same environment and start time differ at
most in the wall-clock-tied fields: `info` bodies agree once
`app.uptime` and `build.time` are blanked, the `build.time` fields
themselves agree whenever `BUILD_TIME` is set, and `configprops` does
not depend on the clock at all (it is a function of the environment
alone). -/
theorem info_configprops_idempotent (p : Platform) (environ : Environ)
    (startTime t1 t2 : ℚ) (iso1 iso2 : String) :
    eraseTimeFields (info p environ startTime t1 iso1) =
        eraseTimeFields (info p environ startTime t2 iso2)
    ∧ (∀ v, lookupEnv environ "BUILD_TIME" = some v →
        (info p environ startTime t1 iso1).build_time =
          (info p environ startTime t2 iso2).build_time)
    ∧ configprops environ t1 = configprops environ t2 := by
  refine ⟨rfl, ?_, rfl⟩
  intro v hv
  simp [info, getenvD, hv]

/-- Witness for `info_configprops_idempotent`: with `BUILD_TIME` set,
the `build.time` fields of two calls agree. -/
theorem info_configprops_idempotent_witness :
    (info ⟨"3", "C", 3, 0, 0, "L", "6", "x", ""⟩
        [("BUILD_TIME", "2024-01-01T00:00:00")] 0 1 "a").build_time =
      (info ⟨"3", "C", 3, 0, 0, "L", "6", "x", ""⟩
        [("BUILD_TIME", "2024-01-01T00:00:00")] 0 2 "b").build_time :=
  (info_configprops_idempotent ⟨"3", "C", 3, 0, 0, "L", "6", "x", ""⟩
      [("BUILD_TIME", "2024-01-01T00:00:00")] 0 1 2 "a" "b").2.1
    "2024-01-01T00:00:00" rfl

/-- Helper: Python `int(...)` truncation toward zero is monotone. -/
theorem intTrunc_mono (a b : ℚ) (h : a ≤ b) : intTrunc a ≤ intTrunc b := by
  unfold intTrunc
  split_ifs with ha hb hb2
  · exact Int.floor_mono h
  · exact absurd (le_trans ha h) hb
  · refine le_trans (Int.ceil_le.mpr ?_) (Int.floor_nonneg.mpr hb2)
    exact_mod_cast le_of_lt (not_le.mp ha)
  · exact Int.ceil_mono h

/-- C7: with a fixed start time, the uptime `info` serializes (integer
seconds, then suffixed with "s") is non-decreasing in the call time,
and the `process.uptime` value of `metrics` equals `now − start`,
which is non-decreasing as well. -/
theorem uptime_monotone (p : Platform) (environ : Environ) (nowIso : String)
    (startTime t1 t2 c : ℚ) (vm : VirtualMemory) (du : DiskUsage)
    (h1 : t1 ≤ t2) (h2 : du.total ≠ 0) :
    infoUptimeSeconds startTime t1 ≤ infoUptimeSeconds startTime t2
    ∧ (info p environ startTime t1 nowIso).app_uptime =
        toString (infoUptimeSeconds startTime t1) ++ "s"
    ∧ processUptimeOf (metrics (.ok c) (.ok vm) (.ok du) startTime t1) =
        some (t1 - startTime)
    ∧ t1 - startTime ≤ t2 - startTime := by
  refine ⟨intTrunc_mono _ _ (by linarith), rfl, ?_, by linarith⟩
  simp [metrics, processUptimeOf, h2, List.lookup]

/-- Witness for `uptime_monotone`: uptime at time 2 is at least uptime
at time 1, for start time 0. -/
theorem uptime_monotone_witness :
    infoUptimeSeconds 0 1 ≤ infoUptimeSeconds 0 2 ∧
      processUptimeOf (metrics (.ok 5) (.ok ⟨1000, 500, 50⟩)
        (.ok ⟨1000, 400, 600⟩) 0 1) = some (1 - 0) :=
  ⟨(uptime_monotone ⟨"3", "C", 3, 0, 0, "L", "6", "x", ""⟩ [] "i" 0 1 2 5
      ⟨1000, 500, 50⟩ ⟨1000, 400, 600⟩ (by norm_num) (by norm_num)).1,
   (uptime_monotone ⟨"3", "C", 3, 0, 0, "L", "6", "x", ""⟩ [] "i" 0 1 2 5
      ⟨1000, 500, 50⟩ ⟨1000, 400, 600⟩ (by norm_num) (by norm_num)).2.2.1⟩

/-- C9: every successful `metrics` response lists exactly the six
metric names, the keys of `measurements` are those names in the same
order, and every measurement carries statistic kind `"VALUE"`; the
HTTP status is 200. -/
theorem metrics_names_and_statistics (c : ℚ) (vm : VirtualMemory)
    (du : DiskUsage) (startTime now : ℚ) (h : du.total ≠ 0) :
    ∃ b, metrics (.ok c) (.ok vm) (.ok du) startTime now = ⟨.ok b, 200⟩
      ∧ b.measurements.map Prod.fst = b.names
      ∧ b.names = ["system.cpu.usage", "system.memory.usage",
                   "system.memory.total", "system.disk.usage",
                   "system.disk.total", "process.uptime"]
      ∧ ∀ pr ∈ b.measurements, pr.2.statistic = "VALUE" := by
  simp only [metrics, if_neg h]
  refine ⟨_, rfl, rfl, rfl, ?_⟩
  intro pr hpr
  simp only [List.mem_cons, List.not_mem_nil, or_false] at hpr
  rcases hpr with h | h | h | h | h | h <;> subst h <;> rfl

/-- Witness for `metrics_names_and_statistics` at a concrete
successful read set. -/
theorem metrics_names_and_statistics_witness :
    ∃ b, metrics (.ok 5) (.ok ⟨1000, 500, 50⟩) (.ok ⟨1000, 400, 600⟩) 0 1 =
        ⟨.ok b, 200⟩
      ∧ b.measurements.map Prod.fst = b.names
      ∧ b.names = ["system.cpu.usage", "system.memory.usage",
                   "system.memory.total", "system.disk.usage",
                   "system.disk.total", "process.uptime"]
      ∧ ∀ pr ∈ b.measurements, pr.2.statistic = "VALUE" :=
  metrics_names_and_statistics 5 ⟨1000, 500, 50⟩ ⟨1000, 400, 600⟩ 0 1
    (by norm_num)

/-- Helper: correctness of the Boolean list-prefix test. -/
theorem isPrefixL_iff (a : List Char) : ∀ b, isPrefixL a b = true ↔ a <+: b := by
  induction a with
  | nil => intro b; simp [isPrefixL]
  | cons x xs ih =>
    intro b
    cases b with
    | nil => simp [isPrefixL]
    | cons y ys => simp [isPrefixL, ih, List.cons_prefix_cons, And.comm]

/-- Helper: correctness of the Boolean list-substring test. -/
theorem containsL_iff (n : List Char) : ∀ h, containsL n h = true ↔ n <:+: h := by
  intro h
  induction h with
  | nil => simp [containsL, isPrefixL_iff]
  | cons b bs ih => simp [containsL, isPrefixL_iff, ih, List.infix_cons_iff]

/-- Helper: the code's Boolean filter predicate agrees with the
spec-side sensitivity predicate. -/
theorem isSensitiveName_iff (k : String) :
    isSensitiveName k = true ↔ SpecSensitive k := by
  simp [isSensitiveName, SpecSensitive, strIn, containsL_iff]

/-- C4: `env` emits exactly the non-sensitive variables.  A pair
`(k, {"value": v})` is in the output iff `(k, v)` is in the process
environment and `k` does not contain (case-insensitively) any denylist
substring; and a sensitive name never appears in the output under any
value. -/
theorem env_redaction (environ : Environ) (k v : String) :
    ((k, PropVal.mk v) ∈ (env environ).properties ↔
      ((k, v) ∈ environ ∧ ¬ SpecSensitive k))
    ∧ (SpecSensitive k → ∀ pv : PropVal, (k, pv) ∉ (env environ).properties) := by
  constructor
  · constructor
    · intro hmem
      simp only [env, List.mem_map, List.mem_filter] at hmem
      obtain ⟨⟨k', v'⟩, ⟨hin, hsafe⟩, heq⟩ := hmem
      obtain ⟨hk, hv⟩ := Prod.mk.injEq .. ▸ heq
      obtain rfl : v' = v := congrArg PropVal.value hv
      subst hk
      refine ⟨hin, fun hs => ?_⟩
      rw [Bool.not_eq_true', ← Bool.not_eq_true, isSensitiveName_iff] at hsafe
      exact hsafe hs
    · intro ⟨hin, hns⟩
      simp only [env, List.mem_map, List.mem_filter]
      refine ⟨(k, v), ⟨hin, ?_⟩, rfl⟩
      rw [Bool.not_eq_true', ← Bool.not_eq_true, isSensitiveName_iff]
      exact hns
  · intro hs pv hmem
    simp only [env, List.mem_map, List.mem_filter] at hmem
    obtain ⟨⟨k', v'⟩, ⟨_, hsafe⟩, heq⟩ := hmem
    obtain ⟨hk, _⟩ := Prod.mk.injEq .. ▸ heq
    subst hk
    rw [Bool.not_eq_true', ← Bool.not_eq_true, isSensitiveName_iff] at hsafe
    exact hsafe hs

/-- Witness for `env_redaction`: `PATH` passes through with its exact
value while `API_TOKEN` (name contains "token") never appears. -/
theorem env_redaction_witness :
    (("PATH", PropVal.mk "/usr/bin") ∈
        (env [("PATH", "/usr/bin"), ("API_TOKEN", "x")]).properties)
    ∧ ∀ pv : PropVal,
        ("API_TOKEN", pv) ∉
          (env [("PATH", "/usr/bin"), ("API_TOKEN", "x")]).properties :=
  ⟨(env_redaction [("PATH", "/usr/bin"), ("API_TOKEN", "x")]
      "PATH" "/usr/bin").1.mpr
      ⟨by decide, by rw [← isSensitiveName_iff]; decide⟩,
   fun pv =>
    (env_redaction [("PATH", "/usr/bin"), ("API_TOKEN", "x")]
      "API_TOKEN" "x").2 (by rw [← isSensitiveName_iff]; decide) pv⟩
